import Mathlib

/-!
Verification of the static-file HTTP server in `main.py` (Your-Work
Innovations website server).  The Python source is shallowly embedded:
pure fragments become Lean functions, the process environment becomes an
association list, socket availability becomes a boolean predicate on
(address, port) pairs, and exceptional control flow becomes `Except` /
explicit result records.
-/

namespace MainPy

/-- The process environment: an association list from variable names to
string values (`os.environ`). -/
def Env : Type := List (String × String)

/-- `os.environ.get(k)` / `k in os.environ` combined: look a variable up. -/
def envGet (env : Env) (k : String) : Option String :=
  (List.lookup k env)

/-- Characters Python's `int()` strips from both ends of its argument. -/
def pySpaceChars : List Char :=
  [' ', '\t', '\n', '\r', '\x0b', '\x0c']

/-- Decimal digit test used by the `int()` model. -/
def isDig (c : Char) : Bool :=
  '0' ≤ c && c ≤ '9'

/-- Numeric value of a decimal digit character. -/
def digitVal (c : Char) : Nat :=
  c.toNat - Char.toNat '0'

/-- Digits of a Python decimal literal after the first digit: plain digits,
with single underscores allowed between digits (`1_000`), accumulating the
value. -/
def pyDigitsAux (acc : Nat) : List Char → Option Nat
  | [] => some acc
  | '_' :: c :: rest =>
      if isDig c then pyDigitsAux (acc * 10 + digitVal c) rest else none
  | c :: rest =>
      if isDig c then pyDigitsAux (acc * 10 + digitVal c) rest else none

/-- A nonempty Python decimal digit sequence (underscore grouping allowed
after the first digit). -/
def pyDigitsStart : List Char → Option Nat
  | [] => none
  | c :: rest => if isDig c then pyDigitsAux (digitVal c) rest else none

/-- Model of Python's `int(s)` for a decimal string: strip whitespace from
both ends, allow one optional sign, then a nonempty digit sequence.
`none` models an uncaught `ValueError`. -/
def pyInt (s : String) : Option Int :=
  let core :=
    ((s.toList.dropWhile (fun c => c ∈ pySpaceChars)).reverse.dropWhile
      (fun c => c ∈ pySpaceChars)).reverse
  match core with
  | '+' :: rest => (pyDigitsStart rest).map Int.ofNat
  | '-' :: rest => (pyDigitsStart rest).map (fun n => -(Int.ofNat n))
  | rest => (pyDigitsStart rest).map Int.ofNat

/-- Module-level `PORT = int(os.environ.get('PORT', 8000))`.
`none` models the `ValueError` that escapes during module import. -/
def module_PORT (env : Env) : Option Int :=
  match envGet env "PORT" with
  | some s => pyInt s
  | none => some 8000

/-- Module-level `HOST = os.environ.get('HOST', '0.0.0.0')`. -/
def module_HOST (env : Env) : String :=
  (envGet env "HOST").getD "0.0.0.0"

/-- Python exceptions relevant to the embedded fragments. -/
inductive PyErr where
  | valueError (arg : String)
  | osError (msg : String)
deriving Repr, DecidableEq

/-- The scan loop of `find_free_port`: walk `range(start, start + n)`,
return the first port for which binding a throwaway socket to the literal
address `'0.0.0.0'` succeeds.  `free a p` says a bind of `(a, p)` would
succeed. -/
def scanFrom (free : String → Int → Bool) : Int → Nat → Option Int
  | _, 0 => none
  | start, n + 1 =>
      if free "0.0.0.0" start then some start
      else scanFrom free (start + 1) n

/-- The bind attempts (address, port) the scan loop makes, in order,
including the final successful one when there is one. -/
def scanAttempts (free : String → Int → Bool) : Int → Nat → List (String × Int)
  | _, 0 => []
  | start, n + 1 =>
      if free "0.0.0.0" start then [("0.0.0.0", start)]
      else ("0.0.0.0", start) :: scanAttempts free (start + 1) n

/-- `find_free_port(start_port=8000, max_attempts=10)`: if `PORT` is in the
environment return `int(os.environ['PORT'])` directly; otherwise scan
`range(start_port, start_port + max_attempts)` and return the first port
bindable on `'0.0.0.0'`; raise `OSError` naming the range when none is. -/
def find_free_port (env : Env) (free : String → Int → Bool)
    (start_port : Int) (max_attempts : Nat) : Except PyErr Int :=
  match envGet env "PORT" with
  | some s =>
      match pyInt s with
      | some p => Except.ok p
      | none => Except.error (PyErr.valueError s)
  | none =>
      match scanFrom free start_port max_attempts with
      | some p => Except.ok p
      | none =>
          Except.error (PyErr.osError
            ("Could not find a free port in range " ++ toString start_port
              ++ "-" ++ toString (start_port + (max_attempts : Int))))

/-- The bind attempts `find_free_port` makes: none at all when `PORT` is
set, the scan-loop attempts otherwise. -/
def find_free_port_attempts (env : Env) (free : String → Int → Bool)
    (start_port : Int) (max_attempts : Nat) : List (String × Int) :=
  match envGet env "PORT" with
  | some _ => []
  | none => scanAttempts free start_port max_attempts

/-- An HTTP response as observable at the client: status code, the header
lines written, and the body.  Headers are in write order. -/
structure Response where
  status : Nat
  headers : List (String × String)
  body : String
deriving Repr, DecidableEq

/-- The six headers `CustomHTTPRequestHandler.end_headers` injects with
`send_header` before delegating, in source order. -/
def injected_headers : List (String × String) :=
  [ ("Access-Control-Allow-Origin", "*"),
    ("Access-Control-Allow-Methods", "GET, POST, OPTIONS"),
    ("Access-Control-Allow-Headers", "Content-Type"),
    ("X-Content-Type-Options", "nosniff"),
    ("X-Frame-Options", "DENY"),
    ("X-XSS-Protection", "1; mode=block") ]

/-- `CustomHTTPRequestHandler.end_headers`: given the header lines already
queued by earlier `send_header` calls, append the six injected headers and
finalize (the `super().end_headers()` call flushes and adds nothing). -/
def end_headers (sent : List (String × String)) : List (String × String) :=
  sent ++ injected_headers

/-- A response finalized through the custom `end_headers`: its header block
is whatever was sent so far followed by the injected headers. -/
def mkResponse (status : Nat) (sent : List (String × String))
    (body : String) : Response :=
  { status := status, headers := end_headers sent, body := body }

/-- The serving root: file names (relative to the root, no leading slash)
mapped to their contents. -/
structure FS where
  files : List (String × String)

/-- The URL-path-to-file-name translation of the library static handler:
drop the single leading slash. -/
def translate_path (p : String) : String :=
  if p.startsWith "/" then p.drop 1 else p

/-- Model of the library `SimpleHTTPRequestHandler.do_GET` (external
standard-library code, abstracted): look the translated path up in the
serving root, answer 200 with the file body or 404 with an error body;
either way the response is finalized through the custom `end_headers`. -/
def super_do_GET (fs : FS) (path : String) : Response :=
  match List.lookup (translate_path path) fs.files with
  | some content => mkResponse 200 [("Content-Type", "text/html")] content
  | none => mkResponse 404 [("Content-Type", "text/html;charset=utf-8")]
      "404 File not found"

/-- `CustomHTTPRequestHandler.do_GET`: rewrite the exact path `/` to
`/index.html`, then delegate to the library handler. -/
def do_GET (fs : FS) (path : String) : Response :=
  super_do_GET fs (if path = "/" then "/index.html" else path)

/-- The candidate logo file names `check_files` looks for. -/
def logo_files : List String :=
  ["logo.png", "logo.svg", "logo.jpg", "logo.jpeg"]

/-- `check_files()`: require `index.html` in the serving root (error and
`False` when absent), warn when no logo candidate is present.  Returns the
boolean result together with the lines printed. -/
def check_files (fs : FS) : Bool × List String :=
  if (List.lookup "index.html" fs.files).isNone then
    (false,
      [ "❌ Error: index.html not found in current directory",
        "   Make sure you're running this script from the same directory as index.html" ])
  else
    if logo_files.any (fun l => (List.lookup l fs.files).isSome) then
      (true, [])
    else
      (true,
        [ "⚠️  Warning: Logo file not found. The website may not display logos correctly.",
          "   Expected files: logo.png, logo.svg, logo.jpg, or logo.jpeg" ])

/-- How the blocking `serve_forever()` loop ends: a `KeyboardInterrupt`
(operator interrupt) or an unhandled `Exception` from accepting/serving. -/
inductive ServeOutcome where
  | interrupt
  | exception (msg : String)
deriving Repr, DecidableEq

/-- The observable outcome of one `start_server()` call: whether the
`TCPServer` was constructed (listener bound), whether the serve loop was
entered, and the notable lines printed. -/
structure RunResult where
  serverConstructed : Bool
  served : Bool
  events : List String
deriving Repr, DecidableEq

/-- `start_server()`: check files (return early on failure), resolve the
port via `find_free_port(PORT)` (print the `OSError` and return early on
exhaustion), construct the `TCPServer((HOST, port))` and serve until the
loop ends.  `bind a p` says constructing the listener on `(a, p)` succeeds;
a bind failure, like any other `Exception`, is caught by the outer handler
and printed.  `PORT` and `HOST` are the module-level globals. -/
def start_server (env : Env) (fs : FS) (free bind : String → Int → Bool)
    (serve : ServeOutcome) (PORT : Int) (HOST : String) : RunResult :=
  let cf := check_files fs
  if ¬ cf.1 then
    { serverConstructed := false, served := false, events := cf.2 }
  else
    match find_free_port env free PORT 10 with
    | Except.error (PyErr.osError m) =>
        { serverConstructed := false, served := false,
          events := cf.2 ++ ["❌ Error: " ++ m] }
    | Except.error (PyErr.valueError _) =>
        { serverConstructed := false, served := false,
          events := cf.2 ++ ["❌ Error starting server"] }
    | Except.ok port =>
        if bind HOST port then
          let banner := ["📍 Server running at: http://" ++ HOST ++ ":"
                          ++ toString port,
                         "✅ Server started successfully! Waiting for requests..."]
          match serve with
          | ServeOutcome.interrupt =>
              { serverConstructed := true, served := true,
                events := cf.2 ++ banner ++ ["🛑 Server stopped by user"] }
          | ServeOutcome.exception m =>
              { serverConstructed := true, served := true,
                events := cf.2 ++ banner
                  ++ ["❌ Error starting server: " ++ m] }
        else
          { serverConstructed := false, served := false,
            events := cf.2 ++ ["❌ Error starting server"] }

/-- Running the script end to end: module import evaluates
`PORT = int(os.environ.get('PORT', 8000))`; a `ValueError` there escapes
uncaught (process exit code 1, nothing else runs).  Otherwise `main()`
runs `start_server()`, which handles every `Exception` internally, so the
process exits with code 0.  Returns the exit code and, when `main` ran,
the `start_server` outcome. -/
def pythonRun (env : Env) (fs : FS) (free bind : String → Int → Bool)
    (serve : ServeOutcome) : Nat × Option RunResult :=
  match module_PORT env with
  | none => (1, none)
  | some port0 =>
      (0, some (start_server env fs free bind serve port0 (module_HOST env)))

/-! ### Helper lemmas about the scan loop and the file check -/

/-- If every port in the scanned window is occupied, the scan finds
nothing. -/
theorem scanFrom_eq_none (free : String → Int → Bool) (start : Int) (n : Nat)
    (hocc : ∀ i : Nat, i < n → free "0.0.0.0" (start + (i : Int)) = false) :
    scanFrom free start n = none := by
  induction n generalizing start with
  | zero => rfl
  | succ n ih =>
    have h0 : free "0.0.0.0" start = false := by
      simpa using hocc 0 (Nat.succ_pos n)
    have hrec : scanFrom free (start + 1) n = none := by
      apply ih
      intro i hi
      have h := hocc (i + 1) (by omega)
      have e : start + ((i : Int) + 1) = start + 1 + (i : Int) := by ring
      push_cast at h
      rw [e] at h
      exact h
    simp [scanFrom, h0, hrec]

/-- If the first `k` scanned ports are occupied and the `(k+1)`-st is free,
with `k` inside the window, the scan returns exactly that port. -/
theorem scanFrom_eq_first_free (free : String → Int → Bool) (start : Int)
    (n k : Nat) (hk : k < n)
    (hocc : ∀ i : Nat, i < k → free "0.0.0.0" (start + (i : Int)) = false)
    (hfree : free "0.0.0.0" (start + (k : Int)) = true) :
    scanFrom free start n = some (start + (k : Int)) := by
  induction n generalizing start k with
  | zero => exact absurd hk (Nat.not_lt_zero k)
  | succ n ih =>
    cases k with
    | zero =>
      have h0 : free "0.0.0.0" start = true := by simpa using hfree
      simp [scanFrom, h0]
    | succ j =>
      have h0 : free "0.0.0.0" start = false := by
        simpa using hocc 0 (Nat.succ_pos j)
      have hocc' : ∀ i : Nat, i < j →
          free "0.0.0.0" (start + 1 + (i : Int)) = false := by
        intro i hi
        have h := hocc (i + 1) (by omega)
        have e : start + ((i : Int) + 1) = start + 1 + (i : Int) := by ring
        push_cast at h
        rw [e] at h
        exact h
      have hfree' : free "0.0.0.0" (start + 1 + (j : Int)) = true := by
        have e : start + ((j : Int) + 1) = start + 1 + (j : Int) := by ring
        push_cast at hfree
        rw [e] at hfree
        exact hfree
      have hrec := ih (start + 1) j (by omega) hocc' hfree'
      have e : start + 1 + (j : Int) = start + ((j : Nat) + 1 : Nat) := by
        push_cast
        ring
      simp [scanFrom, h0, hrec, e]

/-- Any port the scan returns lies inside the scanned window. -/
theorem scanFrom_mem_range (free : String → Int → Bool) (start : Int)
    (n : Nat) (p : Int) (h : scanFrom free start n = some p) :
    start ≤ p ∧ p < start + (n : Int) := by
  induction n generalizing start with
  | zero => simp [scanFrom] at h
  | succ n ih =>
    rw [scanFrom] at h
    by_cases hf : free "0.0.0.0" start = true
    · rw [if_pos hf] at h
      simp only [Option.some.injEq] at h
      push_cast
      omega
    · rw [if_neg hf] at h
      have := ih (start + 1) h
      push_cast
      push_cast at this
      omega

/-- Every bind attempt the scan loop makes uses the literal address
`'0.0.0.0'`. -/
theorem scanAttempts_addr (free : String → Int → Bool) (start : Int)
    (n : Nat) :
    ∀ a ∈ scanAttempts free start n, a.1 = "0.0.0.0" := by
  induction n generalizing start with
  | zero =>
    intro a ha
    simp [scanAttempts] at ha
  | succ n ih =>
    intro a ha
    rw [scanAttempts] at ha
    by_cases hf : free "0.0.0.0" start = true
    · rw [if_pos hf] at ha
      simp at ha
      rw [ha]
    · rw [if_neg hf] at ha
      simp at ha
      rcases ha with ha | ha
      · rw [ha]
      · exact ih (start + 1) a ha

/-- The scan result depends on the bind predicate only via the wildcard
address `'0.0.0.0'`. -/
theorem scanFrom_congr (free g : String → Int → Bool) (start : Int) (n : Nat)
    (hagree : ∀ p : Int, g "0.0.0.0" p = free "0.0.0.0" p) :
    scanFrom g start n = scanFrom free start n := by
  induction n generalizing start with
  | zero => rfl
  | succ n ih =>
    rw [scanFrom, scanFrom, hagree, ih (start + 1)]

/-- `check_files` succeeds whenever `index.html` is present. -/
theorem check_files_fst_of_index (fs : FS)
    (h : (List.lookup "index.html" fs.files).isSome = true) :
    (check_files fs).1 = true := by
  cases hl : List.lookup "index.html" fs.files with
  | none => rw [hl] at h; simp at h
  | some c =>
    rw [check_files, hl]
    simp only [Option.isNone_some, Bool.false_eq_true, if_false]
    split
    · rfl
    · rfl

/-! ### Claim theorems -/

/-- C1: every response produced by the Request Handler — for any status
code and any headers the base handler queued, in particular the 404 for a
missing file — contains all six injected headers (CORS origin, methods,
allowed headers, nosniff, frame deny, XSS protection), because the custom
`end_headers` appends them on every response. -/
theorem C1_every_response_has_injected_headers :
    (∀ (status : Nat) (sent : List (String × String)) (body : String),
        List.Sublist injected_headers (mkResponse status sent body).headers)
    ∧ (∀ (fs : FS) (path : String),
        List.Sublist injected_headers (do_GET fs path).headers) := by
  constructor
  · intro status sent body
    exact List.sublist_append_right sent injected_headers
  · intro fs path
    rw [do_GET, super_do_GET]
    cases List.lookup
        (translate_path (if path = "/" then "/index.html" else path)) fs.files
    · exact List.sublist_append_right _ injected_headers
    · exact List.sublist_append_right _ injected_headers

/-- C2: whenever the environment variable `PORT` is set (to a string that
parses as the integer `P`), `find_free_port` returns `P` verbatim and
makes no bind attempt at all — no scanning happens. -/
theorem C2_env_port_verbatim_no_scan
    (env : Env) (free : String → Int → Bool) (start_port : Int)
    (max_attempts : Nat) (s : String) (P : Int)
    (hset : envGet env "PORT" = some s) (hparse : pyInt s = some P) :
    find_free_port env free start_port max_attempts = Except.ok P ∧
    find_free_port_attempts env free start_port max_attempts = [] := by
  simp [find_free_port, find_free_port_attempts, hset, hparse]

/-- Witness for C2 at `PORT=8080`. -/
theorem C2_env_port_verbatim_no_scan_witness :
    find_free_port [("PORT", "8080")] (fun _ _ => false) 8000 10 =
      Except.ok 8080 ∧
    find_free_port_attempts [("PORT", "8080")] (fun _ _ => false) 8000 10 =
      [] :=
  C2_env_port_verbatim_no_scan [("PORT", "8080")] (fun _ _ => false) 8000 10
    "8080" 8080 (by rfl) (by rfl)

/-- C3: with `PORT` unset, if ports `8000 .. 8000+k-1` are occupied and
`8000+k` is free with `k < 10` (`max_attempts = 10`), `find_free_port`
returns `8000+k`, the first bindable candidate in ascending order. -/
theorem C3_scan_returns_first_free
    (env : Env) (free : String → Int → Bool) (k : Nat)
    (hunset : envGet env "PORT" = none) (hk : k < 10)
    (hocc : ∀ i : Nat, i < k → free "0.0.0.0" (8000 + (i : Int)) = false)
    (hfree : free "0.0.0.0" (8000 + (k : Int)) = true) :
    find_free_port env free 8000 10 = Except.ok (8000 + (k : Int)) := by
  rw [find_free_port, hunset,
    scanFrom_eq_first_free free 8000 10 k hk hocc hfree]

/-- Witness for C3: ports 8000–8002 busy, 8003 free, scan returns 8003. -/
theorem C3_scan_returns_first_free_witness :
    find_free_port [("HOST", "0.0.0.0")] (fun _ p => p == 8003) 8000 10 =
      Except.ok (8000 + ((3 : Nat) : Int)) :=
  C3_scan_returns_first_free [("HOST", "0.0.0.0")] (fun _ p => p == 8003) 3
    (by rfl) (by omega) (by decide) (by decide)

/-- C5: a GET for the exact path `/` is rewritten to `/index.html` before
static-file resolution, so it yields the identical response (status,
headers, body) as an explicit GET for `/index.html`, whatever the serving
root contains. -/
theorem C5_root_served_as_index (fs : FS) :
    do_GET fs "/" = do_GET fs "/index.html" := by
  rw [do_GET, do_GET, if_pos rfl, if_neg (by decide)]

/-- C4: with `PORT` unset and every port of the scan window occupied,
`find_free_port` raises `OSError` with a message naming the attempted
range; `start_server` catches it, prints it, and returns without ever
constructing the TCP server, and the process still exits with code 0
(no ungraceful crash). -/
theorem C4_port_exhaustion_graceful_abort
    (env : Env) (fs : FS) (free bind : String → Int → Bool)
    (serve : ServeOutcome) (HOST : String)
    (hunset : envGet env "PORT" = none)
    (hidx : (List.lookup "index.html" fs.files).isSome = true)
    (hocc : ∀ i : Nat, i < 10 → free "0.0.0.0" (8000 + (i : Int)) = false) :
    find_free_port env free 8000 10 =
      Except.error
        (PyErr.osError "Could not find a free port in range 8000-8010") ∧
    (start_server env fs free bind serve 8000 HOST).serverConstructed =
      false ∧
    (start_server env fs free bind serve 8000 HOST).served = false ∧
    "❌ Error: Could not find a free port in range 8000-8010" ∈
      (start_server env fs free bind serve 8000 HOST).events ∧
    (pythonRun env fs free bind serve).1 = 0 := by
  have hscan := scanFrom_eq_none free 8000 10 hocc
  have hfind : find_free_port env free 8000 10 =
      Except.error
        (PyErr.osError "Could not find a free port in range 8000-8010") := by
    simp only [find_free_port, hunset, hscan]
    rfl
  have hcf := check_files_fst_of_index fs hidx
  have hstart : start_server env fs free bind serve 8000 HOST =
      { serverConstructed := false, served := false,
        events := (check_files fs).2 ++
          ["❌ Error: Could not find a free port in range 8000-8010"] } := by
    simp only [start_server, hcf, hfind]
    simp
  refine ⟨hfind, ?_, ?_, ?_, ?_⟩
  · rw [hstart]
  · rw [hstart]
  · rw [hstart]
    exact List.mem_append_right _ (List.mem_singleton.mpr rfl)
  · have hport : module_PORT env = some 8000 := by
      rw [module_PORT, hunset]
    simp [pythonRun, hport]

/-- Witness for C4: empty environment, valid serving root, all ports
occupied. -/
theorem C4_port_exhaustion_graceful_abort_witness :
    find_free_port [] (fun _ _ => false) 8000 10 =
      Except.error
        (PyErr.osError "Could not find a free port in range 8000-8010") ∧
    (start_server [] ⟨[("index.html", "<html>")]⟩ (fun _ _ => false)
        (fun _ _ => true) ServeOutcome.interrupt 8000
        "0.0.0.0").serverConstructed = false ∧
    (start_server [] ⟨[("index.html", "<html>")]⟩ (fun _ _ => false)
        (fun _ _ => true) ServeOutcome.interrupt 8000 "0.0.0.0").served =
      false ∧
    "❌ Error: Could not find a free port in range 8000-8010" ∈
      (start_server [] ⟨[("index.html", "<html>")]⟩ (fun _ _ => false)
        (fun _ _ => true) ServeOutcome.interrupt 8000 "0.0.0.0").events ∧
    (pythonRun [] ⟨[("index.html", "<html>")]⟩ (fun _ _ => false)
        (fun _ _ => true) ServeOutcome.interrupt).1 = 0 :=
  C4_port_exhaustion_graceful_abort [] ⟨[("index.html", "<html>")]⟩
    (fun _ _ => false) (fun _ _ => true) ServeOutcome.interrupt "0.0.0.0"
    (by rfl) (by rfl) (by intro i _; rfl)

/-- C6: when `index.html` is absent from the serving root, `check_files`
fails, `start_server` prints the error lines and returns immediately: the
TCP server is never constructed and the serve loop is never entered. -/
theorem C6_missing_index_aborts_before_bind
    (env : Env) (fs : FS) (free bind : String → Int → Bool)
    (serve : ServeOutcome) (PORT : Int) (HOST : String)
    (hmiss : List.lookup "index.html" fs.files = none) :
    (start_server env fs free bind serve PORT HOST).serverConstructed =
      false ∧
    (start_server env fs free bind serve PORT HOST).served = false ∧
    (start_server env fs free bind serve PORT HOST).events =
      [ "❌ Error: index.html not found in current directory",
        "   Make sure you're running this script from the same directory as index.html" ] := by
  have hcf : check_files fs =
      (false,
        [ "❌ Error: index.html not found in current directory",
          "   Make sure you're running this script from the same directory as index.html" ]) := by
    rw [check_files, hmiss]
    rfl
  simp [start_server, hcf]

/-- Witness for C6 at an empty serving root. -/
theorem C6_missing_index_aborts_before_bind_witness :
    (start_server [] ⟨[]⟩ (fun _ _ => true) (fun _ _ => true)
        ServeOutcome.interrupt 8000 "0.0.0.0").serverConstructed = false ∧
    (start_server [] ⟨[]⟩ (fun _ _ => true) (fun _ _ => true)
        ServeOutcome.interrupt 8000 "0.0.0.0").served = false ∧
    (start_server [] ⟨[]⟩ (fun _ _ => true) (fun _ _ => true)
        ServeOutcome.interrupt 8000 "0.0.0.0").events =
      [ "❌ Error: index.html not found in current directory",
        "   Make sure you're running this script from the same directory as index.html" ] :=
  C6_missing_index_aborts_before_bind [] ⟨[]⟩ (fun _ _ => true)
    (fun _ _ => true) ServeOutcome.interrupt 8000 "0.0.0.0" (by rfl)

/-- C7 counterexample: an unhandled exception in the serve loop does NOT
yield a non-zero exit code.  With a valid serving root and a bindable
port, the run enters the serve loop (`served = true`), the exception
`"boom"` is raised there, `start_server` catches and prints it, and the
process exits with code 0 — refuting the claim that such a run exits
non-zero. -/
theorem C7_serve_loop_exception_exits_zero :
    (pythonRun [] ⟨[("index.html", "<html>"), ("logo.png", "l")]⟩
        (fun _ _ => true) (fun _ _ => true)
        (ServeOutcome.exception "boom")).1 = 0 ∧
    Option.map RunResult.served
      (pythonRun [] ⟨[("index.html", "<html>"), ("logo.png", "l")]⟩
        (fun _ _ => true) (fun _ _ => true)
        (ServeOutcome.exception "boom")).2 = some true := by
  constructor
  · rfl
  · rfl

/-- C7 amended: once module import succeeds, the process exits with code 0
in every case — graceful interrupt shutdown, but also any `Exception`
during startup (after validation) or in the serve loop, since
`start_server` catches them all and converts them to printed messages.  A
non-zero exit (code 1) occurs only when module import itself fails
(`PORT` not parseable as an integer). -/
theorem C7_exit_codes
    (env : Env) (fs : FS) (free bind : String → Int → Bool) :
    (∀ p : Int, module_PORT env = some p →
      ∀ serve : ServeOutcome, (pythonRun env fs free bind serve).1 = 0) ∧
    (module_PORT env = none →
      ∀ serve : ServeOutcome, (pythonRun env fs free bind serve).1 = 1) := by
  constructor
  · intro p hp serve
    simp [pythonRun, hp]
  · intro hp serve
    simp [pythonRun, hp]

/-- Witness for C7 amended: interrupt shutdown with the default
environment exits 0. -/
theorem C7_exit_codes_witness :
    (pythonRun [] ⟨[("index.html", "<html>")]⟩ (fun _ _ => true)
        (fun _ _ => true) ServeOutcome.interrupt).1 = 0 :=
  (C7_exit_codes [] ⟨[("index.html", "<html>")]⟩ (fun _ _ => true)
      (fun _ _ => true)).1 8000 (by rfl) ServeOutcome.interrupt

/-- C8 counterexample: with `PORT=70000` resolution succeeds and returns
70000, which is outside the valid TCP port range `1..65535` — the claimed
invariant fails for environment-supplied values, because `int()`'s result
is used verbatim with no range check. -/
theorem C8_env_port_outside_tcp_range :
    find_free_port [("PORT", "70000")] (fun _ _ => false) 8000 10 =
      Except.ok 70000 ∧
    ¬ (1 ≤ (70000 : Int) ∧ (70000 : Int) ≤ 65535) := by
  constructor
  · rfl
  · decide

/-- C8 amended: when `PORT` is unset, any successfully resolved port lies
in the scanned window `8000..8009` and hence inside `1..65535`; when
`PORT` is set, the parsed integer is returned verbatim with no range
validation, so out-of-range values propagate. -/
theorem C8_resolved_port_range
    (env : Env) (free : String → Int → Bool) (p : Int) :
    (envGet env "PORT" = none →
      find_free_port env free 8000 10 = Except.ok p →
      8000 ≤ p ∧ p ≤ 8009 ∧ 1 ≤ p ∧ p ≤ 65535) ∧
    (∀ s : String, envGet env "PORT" = some s → pyInt s = some p →
      find_free_port env free 8000 10 = Except.ok p) := by
  constructor
  · intro hunset hok
    rw [find_free_port, hunset] at hok
    cases hscan : scanFrom free 8000 10 with
    | none => rw [hscan] at hok; simp at hok
    | some q =>
      rw [hscan] at hok
      simp only [Except.ok.injEq] at hok
      have hb := scanFrom_mem_range free 8000 10 q hscan
      push_cast at hb
      omega
  · intro s hset hparse
    simp [find_free_port, hset, hparse]

/-- Witness for C8 amended: `PORT` unset, port 8000 free, resolution
returns 8000 which lies in all the stated bounds. -/
theorem C8_resolved_port_range_witness :
    8000 ≤ (8000 : Int) ∧ (8000 : Int) ≤ 8009 ∧ 1 ≤ (8000 : Int) ∧
      (8000 : Int) ≤ 65535 :=
  (C8_resolved_port_range [] (fun _ _ => true) 8000).1 (by rfl) (by rfl)

/-- C9: when `PORT` is set to a string `int()` rejects, the `ValueError`
escapes at module import (`PORT = int(os.environ.get('PORT', 8000))`):
the process exits with code 1 and `main`/`start_server` never run — no
file validation, no operator-facing message, no server construction. -/
theorem C9_invalid_port_fails_at_import
    (env : Env) (fs : FS) (free bind : String → Int → Bool)
    (serve : ServeOutcome) (s : String)
    (hset : envGet env "PORT" = some s) (hbad : pyInt s = none) :
    pythonRun env fs free bind serve = (1, none) := by
  simp [pythonRun, module_PORT, hset, hbad]

/-- Witness for C9 at `PORT=abc`. -/
theorem C9_invalid_port_fails_at_import_witness :
    pythonRun [("PORT", "abc")] ⟨[("index.html", "<html>")]⟩
      (fun _ _ => true) (fun _ _ => true) ServeOutcome.interrupt =
      (1, none) :=
  C9_invalid_port_fails_at_import [("PORT", "abc")]
    ⟨[("index.html", "<html>")]⟩ (fun _ _ => true) (fun _ _ => true)
    ServeOutcome.interrupt "abc" (by rfl) (by rfl)

/-- C10: when `PORT` is unset, every bind attempt of the scan targets the
literal wildcard address `'0.0.0.0'`; the scan consults the bind
predicate only at that address, and its result and attempt list are
identical for any two environments agreeing on `PORT` — in particular for
every value of `HOST`. -/
theorem C10_scan_wildcard_host_independent
    (env₁ env₂ : Env) (free g : String → Int → Bool) (start : Int)
    (n : Nat) (h1 : envGet env₁ "PORT" = none)
    (h2 : envGet env₂ "PORT" = none)
    (hagree : ∀ p : Int, g "0.0.0.0" p = free "0.0.0.0" p) :
    find_free_port env₁ free start n = find_free_port env₂ free start n ∧
    find_free_port_attempts env₁ free start n =
      find_free_port_attempts env₂ free start n ∧
    (∀ a ∈ find_free_port_attempts env₁ free start n, a.1 = "0.0.0.0") ∧
    find_free_port env₁ g start n = find_free_port env₁ free start n := by
  refine ⟨?_, ?_, ?_, ?_⟩
  · rw [find_free_port, find_free_port, h1, h2]
  · rw [find_free_port_attempts, find_free_port_attempts, h1, h2]
  · rw [find_free_port_attempts, h1]
    exact scanAttempts_addr free start n
  · rw [find_free_port, find_free_port, h1,
      scanFrom_congr free g start n hagree]

/-- Witness for C10: two environments differing only in `HOST` give the
same resolution result. -/
theorem C10_scan_wildcard_host_independent_witness :
    find_free_port [("HOST", "127.0.0.1")] (fun _ p => p == 8001) 8000 10 =
      find_free_port [("HOST", "0.0.0.0")] (fun _ p => p == 8001) 8000
        10 :=
  (C10_scan_wildcard_host_independent [("HOST", "127.0.0.1")]
      [("HOST", "0.0.0.0")] (fun _ p => p == 8001) (fun _ p => p == 8001)
      8000 10 (by rfl) (by rfl) (fun p => rfl)).1

end MainPy
